import Mathlib

/-
Verification of the ether0 proxy server (src/server.js) against its
natural-language specification.  The server drives a headless browser,
polls an answer region for streamed text, extracts a **...**-delimited
SMILES string and relays events over an SSE stream.  Strings are
embedded as `List Char`; the nondeterministic browser environment is
embedded as explicit parameters (the successive `innerText` observations,
whether warm-browser reuse succeeds, which exception fires).
-/

/-- JS `String.prototype.trim` whitespace test, restricted to the ASCII
whitespace characters (space, tab, line feed, carriage return, vertical
tab, form feed); the claims only exercise these. -/
def isJsSpace (c : Char) : Bool :=
  c == ' ' || c == '\t' || c == '\n' || c == '\r' || c == Char.ofNat 11 || c == Char.ofNat 12

/-- JS `String.prototype.trim`: drop whitespace from both ends
(used at src/server.js line 190, `match[1].trim()`). -/
def trim (l : List Char) : List Char :=
  ((l.dropWhile isJsSpace).reverse.dropWhile isJsSpace).reverse

/-- Attempt to match the regex `\*\*([^*]+)\*\*` (src/server.js lines 183
and 189) anchored at the head of `l`, returning the capture group.  The
regex semantics at one position: after `**`, the greedy `[^*]+` takes the
maximal run of non-asterisk characters; backtracking it cannot help,
because a shorter run leaves the next two positions at a non-asterisk
character, where `\*\*` cannot match.  So a match exists at this position
iff the maximal run is nonempty and is followed by `**`. -/
def matchAt : List Char → Option (List Char)
  | '*' :: '*' :: rest =>
    match rest.takeWhile (fun c => c != '*'), rest.dropWhile (fun c => c != '*') with
    | [], _ => none
    | body, '*' :: '*' :: _ => some body
    | _, _ => none
  | _ => none

/-- First match of `\*\*([^*]+)\*\*` in `l` (leftmost starting position,
as JS `String.prototype.match` with a non-global regex): the capture
group of the match, or `none`. -/
def firstMatch : List Char → Option (List Char)
  | [] => none
  | c :: rest =>
    match matchAt (c :: rest) with
    | some body => some body
    | none => firstMatch rest

/-- The scrape loop's termination test `/\*\*[^*]+\*\*/.test(full)`
(src/server.js line 183). -/
def hasCompletion (l : List Char) : Bool :=
  (firstMatch l).isSome

/-- `const smiles = match ? match[1].trim() : null` (src/server.js
lines 189-190): the trimmed capture group of the first match, or `none`
standing for JS `null`. -/
def smilesOf (full : List Char) : Option (List Char) :=
  Option.map trim (firstMatch full)

/-- Content of the `answer` event: `smiles || "No SMILES found"`
(src/server.js line 191); both JS `null` and the empty string are falsy. -/
def answerContent (full : List Char) : List Char :=
  match smilesOf full with
  | some s => if s = [] then ("No SMILES found").data else s
  | none => ("No SMILES found").data

/-- Per-request scrape accumulator (src/server.js lines 171-172):
`full` is the running accumulation, `prev` the previously observed text. -/
structure ScrapeState where
  full : List Char
  prev : List Char
deriving DecidableEq

/-- `let full = ""; let prev = "";` (src/server.js lines 171-172). -/
def initialScrapeState : ScrapeState :=
  ⟨[], []⟩

/-- The scrape loop (src/server.js lines 174-186), run over the list of
successive `box.innerText()` observations (a failed read is observed as
the empty string, via `.catch(() => "")`).  Each iteration: if the text
is nonempty and strictly longer than `prev`, emit the suffix beyond
`prev`'s length as a delta, set `prev` to the text and append the delta
to `full`; then break if `full` matches the completion pattern, else poll
again.  Returns the final state and the emitted deltas in order; if the
observations run out before the pattern appears (the JS loop would keep
polling), the state and deltas so far are returned. -/
def scrapeLoop : ScrapeState → List (List Char) → ScrapeState × List (List Char)
  | s, [] => (s, [])
  | s, txt :: rest =>
    if txt ≠ [] ∧ s.prev.length < txt.length then
      if hasCompletion (s.full ++ txt.drop s.prev.length) then
        (⟨s.full ++ txt.drop s.prev.length, txt⟩, [txt.drop s.prev.length])
      else
        ((scrapeLoop ⟨s.full ++ txt.drop s.prev.length, txt⟩ rest).1,
          txt.drop s.prev.length :: (scrapeLoop ⟨s.full ++ txt.drop s.prev.length, txt⟩ rest).2)
    else
      if hasCompletion s.full then (s, [])
      else scrapeLoop s rest

example : firstMatch (("foo bar **CC(=O)O** baz").data) = some (("CC(=O)O").data) := by decide

example : firstMatch (("**ab*c**").data) = none := by decide

example : smilesOf (("x ** ** y").data) = some [] := by decide

example :
    scrapeLoop initialScrapeState [("ab").data, ("xyz").data]
      = (⟨("abz").data, ("xyz").data⟩, [("ab").data, ("z").data]) := by decide

/-- The html fragment synthesized for the `structure` event
(src/server.js lines 194-224), with the container id and the extracted
smiles value interpolated verbatim (unescaped), exactly as the template
literal produces it.  Braces and single quotes of the embedded client
script are written with hexadecimal escapes. -/
def htmlFragment (id smiles : String) : String :=
  "\n        <div style=\"background:white;padding:20px;border-radius:10px;margin-top:10px;\">\n"
  ++ "          <script src=\"https://unpkg.com/smiles-drawer@2.0.1/dist/smiles-drawer.min.js\"></script>\n"
  ++ "          <div id=\"" ++ id ++ "\" style=\"height:400px;display:flex;justify-content:center;align-items:center;\"></div>\n"
  ++ "          <script>\n"
  ++ "            (function()\x7b\n"
  ++ "              const smiles = \"" ++ smiles ++ "\";\n"
  ++ "              const container = document.getElementById(\"" ++ id ++ "\");\n"
  ++ "              try \x7b\n"
  ++ "                const isReaction = smiles.includes(\">\");\n"
  ++ "                if (isReaction) \x7b\n"
  ++ "                  const svg = document.createElementNS(\"http://www.w3.org/2000/svg\", \"svg\");\n"
  ++ "                  svg.setAttribute(\"data-smiles\", smiles);\n"
  ++ "                  svg.setAttribute(\"width\", \"100%\");\n"
  ++ "                  svg.setAttribute(\"height\", \"400\");\n"
  ++ "                  container.appendChild(svg);\n"
  ++ "                \x7d else \x7b\n"
  ++ "                  const img = document.createElement(\"img\");\n"
  ++ "                  img.setAttribute(\"data-smiles\", smiles);\n"
  ++ "                  img.setAttribute(\"data-smiles-options\", \x27\x7b\"width\":600,\"height\":400\x7d\x27);\n"
  ++ "                  container.appendChild(img);\n"
  ++ "                \x7d\n"
  ++ "                SmiDrawer.apply();\n"
  ++ "              \x7d catch (err) \x7b\n"
  ++ "                container.innerHTML = \"<p>Unable to render structure</p>\";\n"
  ++ "              \x7d\n"
  ++ "            \x7d)();\n"
  ++ "          </script>\n"
  ++ "        </div>\n      "

/-- The kind of element the embedded client script appends to the
container when it runs in the caller's browser. -/
inductive RenderedElem where
  | svg
  | img
deriving DecidableEq

/-- Effect of the client script embedded by `htmlFragment`
(src/server.js lines 199-221): `const isReaction = smiles.includes(">")`;
if so it creates and appends an SVG element, otherwise an image element. -/
def renderedElement (smiles : List Char) : RenderedElem :=
  if smiles.contains '>' then RenderedElem.svg else RenderedElem.img

/-- The closed set of SSE event kinds written by `send` (src/server.js
lines 125, 180, 191, 226, 229, 233).  `structureEvt` models the
`type: "structure"` event with its `smiles` and `html` payloads. -/
inductive Event where
  | reasoning (content : List Char)
  | answer (content : List Char)
  | structureEvt (smiles : List Char) (html : List Char)
  | error (message : List Char)
  | done
deriving DecidableEq

/-- The `structure` event list (src/server.js lines 193-227): emitted
only when `smiles` is truthy (non-null and nonempty); `id` stands for
the clock-derived container id `"smiles-" + Date.now()`. -/
def structureEvents (id full : List Char) : List Event :=
  match smilesOf full with
  | none => []
  | some s =>
    if s = [] then []
    else [Event.structureEvt s (htmlFragment (String.mk id) (String.mk s)).data]

/-- Events pushed on the success path of the `/ask` handler
(src/server.js lines 171-229): the reasoning deltas of the scrape loop,
then `answer`, then the `structure` event when a nonempty smiles was
extracted, then `done`.  `obs` is the sequence of `innerText`
observations and `id` the clock-derived container id. -/
def successEvents (obs : List (List Char)) (id : List Char) : List Event :=
  ((scrapeLoop initialScrapeState obs).2).map Event.reasoning
    ++ [Event.answer (answerContent (scrapeLoop initialScrapeState obs).1.full)]
    ++ structureEvents id (scrapeLoop initialScrapeState obs).1.full
    ++ [Event.done]

/-- How one streamed request resolves: either the try block runs to
completion (`ok`, with the loop observations and container id), or some
browser step throws after the events `pre` were already pushed (`fail`,
with the exception message). -/
inductive RunOutcome where
  | ok (obs : List (List Char)) (id : List Char)
  | fail (pre : List Event) (msg : List Char)

/-- The full event stream of one request whose question passed
validation (src/server.js lines 128-239): on success the events of the
try block; on an exception, the events already pushed followed by the
`error` event from the catch block (line 233) — the finally block then
ends the response without any further event. -/
def handlerEvents : RunOutcome → List Event
  | RunOutcome.ok obs id => successEvents obs id
  | RunOutcome.fail pre msg => pre ++ [Event.error msg]

/-- Response of the `/ask` endpoint: `badRequest` models
`res.status(400).json({ error: "question required" })`, sent before any
headers are flushed and before any browser work; `sse` models the
event-stream response. -/
inductive Response where
  | badRequest (error : List Char)
  | sse (events : List Event)
deriving DecidableEq

/-- Events pushed over a response (none for a 400 rejection). -/
def responseEvents : Response → List Event
  | Response.badRequest _ => []
  | Response.sse events => events

/-- The `/ask` handler (src/server.js lines 114-240).  The request body's
`question` field is `none` when absent; `if (!question?.trim())` rejects
with 400 when the field is absent or trims to the empty string, before
any browser work; otherwise the SSE stream is opened and the request
plays out as `handlerEvents`. -/
def askHandler (question : Option (List Char)) (o : RunOutcome) : Response :=
  match question with
  | none => Response.badRequest ("question required").data
  | some q =>
    if trim q = [] then Response.badRequest ("question required").data
    else Response.sse (handlerEvents o)

example :
    smilesOf ((scrapeLoop initialScrapeState [("**A>>B**").data]).1.full)
      = some (("A>>B").data) := by decide

example : structureEvents [] (("no pattern here").data) = [] := by decide

example :
    askHandler (some (("   ").data)) (RunOutcome.ok [] [])
      = Response.badRequest (("question required").data) := by decide

/-- A browser instance: the single warm instance launched by `warmUp`,
or a fallback instance freshly launched for one request (identified by a
launch id so distinct requests close distinct instances). -/
inductive Browser where
  | warm
  | fallback (launchId : Nat)
deriving DecidableEq

/-- A page as handed out by `getPage` (src/server.js lines 93-109): the
only request-relevant attribute is the duck-typed `_tempBrowser` field,
set to the freshly launched instance on the fallback path (line 107) and
absent on the warm-reuse path. -/
structure Page where
  tempBrowser : Option Browser
deriving DecidableEq

/-- The process-wide mutable state `warmBrowser` / `warmReady`
(src/server.js lines 24-25), written only by `warmUp`. -/
structure WarmState where
  warmBrowser : Option Browser
  warmReady : Bool
deriving DecidableEq

/-- How far the one-time `warmUp` task (src/server.js lines 52-85) gets:
full success; `launchBrowser()` itself throws (so `warmBrowser` is never
assigned); or a later step throws after `warmBrowser` was assigned.  In
the failure cases the catch block sets `warmReady = false`. -/
inductive WarmUpOutcome where
  | success
  | failAtLaunch
  | failAfterLaunch

/-- State transformer of `warmUp` (src/server.js lines 52-85): the only
writer of `warmBrowser` and `warmReady` in the program. -/
def warmUp (st : WarmState) : WarmUpOutcome → WarmState
  | WarmUpOutcome.success => ⟨some Browser.warm, true⟩
  | WarmUpOutcome.failAtLaunch => ⟨st.warmBrowser, false⟩
  | WarmUpOutcome.failAfterLaunch => ⟨some Browser.warm, false⟩

/-- `getPage` (src/server.js lines 93-109): if `warmReady && warmBrowser`
and deriving a context and page from the warm browser succeeds
(`reuseOk`), return that page with no `_tempBrowser`; on any failure in
that attempt, or when the warm instance is not ready, launch a fallback
browser (`launchId` identifies it), tag the page with it, and return the
page.  Returns the page together with the warm state, which `getPage`
only reads, never writes. -/
def getPage (st : WarmState) (reuseOk : Bool) (launchId : Nat) : Page × WarmState :=
  if st.warmReady && st.warmBrowser.isSome then
    if reuseOk then (⟨none⟩, st)
    else (⟨some (Browser.fallback launchId)⟩, st)
  else (⟨some (Browser.fallback launchId)⟩, st)

/-- A browser-closing action performed by request cleanup. -/
inductive CleanupAction where
  | closeBrowser (b : Browser)
deriving DecidableEq

/-- The finally block of the `/ask` handler (src/server.js lines
234-239), run on success and failure alike: if a page was obtained and it
carries `_tempBrowser`, close that browser (then `res.end()`); the warm
browser is never closed here. -/
def cleanupActions : Option Page → List CleanupAction
  | none => []
  | some p =>
    match p.tempBrowser with
    | some b => [CleanupAction.closeBrowser b]
    | none => []

/-- CSS color value as a red/green/blue triple of 0-255 components. -/
structure Rgb where
  r : Nat
  g : Nat
  b : Nat
deriving DecidableEq

/-- Value of a hexadecimal digit character (0 for a non-hex-digit, which
the claims never exercise). -/
def hexDigitVal (c : Char) : Nat :=
  if 48 ≤ c.toNat ∧ c.toNat ≤ 57 then c.toNat - 48
  else if 97 ≤ c.toNat ∧ c.toNat ≤ 102 then c.toNat - 87
  else if 65 ≤ c.toNat ∧ c.toNat ≤ 70 then c.toNat - 55
  else 0

/-- Decimal value of a digit string. -/
def parseNat (l : List Char) : Nat :=
  l.foldl (fun acc c => acc * 10 + (c.toNat - 48)) 0

/-- Denotation of a CSS 6-digit hex color literal `#rrggbb` (standard CSS
color syntax, used to compare the two color texts of the box locator). -/
def hexColorValue (l : List Char) : Option Rgb :=
  match l with
  | ['#', r1, r2, g1, g2, b1, b2] =>
    some ⟨16 * hexDigitVal r1 + hexDigitVal r2,
          16 * hexDigitVal g1 + hexDigitVal g2,
          16 * hexDigitVal b1 + hexDigitVal b2⟩
  | _ => none

/-- Denotation of a CSS functional color literal `rgb(r, g, b)` with
decimal components (standard CSS color syntax, used to compare the two
color texts of the box locator). -/
def rgbFuncColorValue (l : List Char) : Option Rgb :=
  match l with
  | 'r' :: 'g' :: 'b' :: '(' :: rest =>
    let inner := rest.takeWhile (fun c => c != ')')
    let a := inner.takeWhile (fun c => c != ',')
    let rest1 := (inner.dropWhile (fun c => c != ',')).drop 1
    let b := rest1.takeWhile (fun c => c != ',')
    let c := (rest1.dropWhile (fun c => c != ',')).drop 1
    some ⟨parseNat (trim a), parseNat (trim b), parseNat (trim c)⟩
  | _ => none

/-- The answer-region locator (src/server.js lines 165-167), matching an
inline background-color in either of two textual forms. -/
def boxSelector : String :=
  "div[style*=\"background-color: rgb(38, 39, 48)\"], div[style*=\"background-color: #26272f\"]"

/-- The RGB functional color text appearing in `boxSelector`. -/
def rgbFormText : List Char :=
  ("rgb(38, 39, 48)").data

/-- The hex color text appearing in `boxSelector`. -/
def hexFormText : List Char :=
  ("#26272f").data

example : rgbFuncColorValue rgbFormText = some ⟨38, 39, 48⟩ := by decide

example : hexColorValue hexFormText = some ⟨38, 39, 47⟩ := by decide

/-- Boolean prefix test on character lists, used to state the append-only
assumption on scrape observations. -/
def isPrefixList : List Char → List Char → Bool
  | [], _ => true
  | _ :: _, [] => false
  | a :: as, b :: bs => a == b && isPrefixList as bs

/-- Append-only observation sequences: starting from previously recorded
text `p`, every observation that would trigger a delta (strictly longer
than the recorded text) extends the recorded text, which it then
replaces; other observations leave the recorded text unchanged. -/
def appendOnly : List Char → List (List Char) → Bool
  | _, [] => true
  | p, txt :: rest =>
    if p.length < txt.length then isPrefixList p txt && appendOnly txt rest
    else appendOnly p rest

theorem scrapeLoop_join_eq (obs : List (List Char)) :
    ∀ s : ScrapeState, (scrapeLoop s obs).1.full = s.full ++ ((scrapeLoop s obs).2).flatten := by
  induction obs with
  | nil => intro s; simp [scrapeLoop]
  | cons txt rest ih =>
    intro s
    by_cases hc : txt ≠ [] ∧ s.prev.length < txt.length
    · by_cases hdone : hasCompletion (s.full ++ txt.drop s.prev.length) = true
      · simp [scrapeLoop, hc, hdone]
      · simp [scrapeLoop, hc, hdone, ih, List.append_assoc]
    · by_cases hdone : hasCompletion s.full = true
      · simp [scrapeLoop, hc, hdone]
      · simp [scrapeLoop, hc, hdone, ih]

theorem isPrefixList_append_drop :
    ∀ p t : List Char, isPrefixList p t = true → p ++ t.drop p.length = t
  | [], t, _ => by simp
  | a :: as, [], h => by simp [isPrefixList] at h
  | a :: as, b :: bs, h => by
    simp only [isPrefixList, Bool.and_eq_true, beq_iff_eq] at h
    obtain ⟨rfl, h2⟩ := h
    simpa using isPrefixList_append_drop as bs h2

theorem scrapeLoop_full_eq_prev_aux (obs : List (List Char)) :
    ∀ s : ScrapeState, s.full = s.prev → appendOnly s.prev obs = true →
      (scrapeLoop s obs).1.full = (scrapeLoop s obs).1.prev := by
  induction obs with
  | nil => intro s h _; simpa [scrapeLoop] using h
  | cons txt rest ih =>
    intro s hfp hao
    by_cases hc : txt ≠ [] ∧ s.prev.length < txt.length
    · have hlt : s.prev.length < txt.length := hc.2
      simp only [appendOnly, if_pos hlt, Bool.and_eq_true] at hao
      have hd : s.full ++ txt.drop s.prev.length = txt := by
        rw [hfp]
        exact isPrefixList_append_drop _ _ hao.1
      by_cases hdone : hasCompletion (s.full ++ txt.drop s.prev.length) = true
      · rw [hd] at hdone
        simp [scrapeLoop, hc, hd, hdone]
      · have := ih ⟨s.full ++ txt.drop s.prev.length, txt⟩ hd hao.2
        simpa [scrapeLoop, hc, hdone] using this
    · have hnlt : ¬ s.prev.length < txt.length := by
        intro hlt
        apply hc
        refine ⟨?_, hlt⟩
        intro he
        rw [he] at hlt
        simp at hlt
      simp only [appendOnly, if_neg hnlt] at hao
      by_cases hdone : hasCompletion s.full = true
      · simpa [scrapeLoop, hc, hdone] using hfp
      · simpa [scrapeLoop, hc, hdone] using ih s hfp hao

/-- C2: for every request that reaches loop termination, concatenating
the emitted reasoning deltas, in emission order, yields exactly the
accumulated text from which the answer is extracted. -/
theorem reasoning_deltas_join_full (obs : List (List Char))
    (_h : hasCompletion (scrapeLoop initialScrapeState obs).1.full = true) :
    ((scrapeLoop initialScrapeState obs).2).flatten
      = (scrapeLoop initialScrapeState obs).1.full := by
  have := scrapeLoop_join_eq obs initialScrapeState
  simpa [initialScrapeState] using this.symm

theorem reasoning_deltas_join_full_witness :
    ((scrapeLoop initialScrapeState [("**a**").data]).2).flatten
      = (scrapeLoop initialScrapeState [("**a**").data]).1.full :=
  reasoning_deltas_join_full [("**a**").data] (by decide)

/-- C8 counterexample: with the observation sequence "ab", "xyz" (the
second read grows the text but does not extend the first), the loop
reaches an iteration boundary where the accumulated text "abz" differs
from the recorded observation "xyz". -/
theorem scrape_full_ne_prev_counterexample :
    (scrapeLoop initialScrapeState [("ab").data, ("xyz").data]).1.full
      ≠ (scrapeLoop initialScrapeState [("ab").data, ("xyz").data]).1.prev := by
  decide

/-- C8 (amended): provided the observations are append-only (every read
that grows the text extends the previously recorded text), the
accumulated text equals the previously recorded observation at every
iteration boundary, so completion detection and extraction run on
exactly the most recent grown snapshot. -/
theorem scrape_full_eq_prev_of_append_only (obs : List (List Char))
    (h : appendOnly [] obs = true) :
    (scrapeLoop initialScrapeState obs).1.full
      = (scrapeLoop initialScrapeState obs).1.prev :=
  scrapeLoop_full_eq_prev_aux obs initialScrapeState rfl h

theorem scrape_full_eq_prev_of_append_only_witness :
    (scrapeLoop initialScrapeState [("ab").data, ("abc").data]).1.full
      = (scrapeLoop initialScrapeState [("ab").data, ("abc").data]).1.prev :=
  scrape_full_eq_prev_of_append_only [("ab").data, ("abc").data] (by decide)

theorem count_done_map_reasoning (ds : List (List Char)) :
    (ds.map Event.reasoning).count Event.done = 0 := by
  induction ds with
  | nil => rfl
  | cons d ds ih => simp [List.count_cons, ih]

theorem count_done_structureEvents (id full : List Char) :
    (structureEvents id full).count Event.done = 0 := by
  rcases h : smilesOf full with _ | s
  · simp [structureEvents, h]
  · by_cases hs : s = [] <;> simp [structureEvents, h, hs, List.count_cons]

/-- C1 (amended): for every request whose question passed validation, the
event stream either ends with exactly one done event as its final event
(success path), or ends with an error event as its final event with no
done event after it (failure path: the catch block pushes error and the
stream is then closed without a done). -/
theorem stream_final_event_shape (o : RunOutcome) :
    (∀ obs id, o = RunOutcome.ok obs id →
      (∃ l, handlerEvents o = l ++ [Event.done])
        ∧ (handlerEvents o).count Event.done = 1) ∧
    (∀ pre msg, o = RunOutcome.fail pre msg →
      ∃ l, handlerEvents o = l ++ [Event.error msg]) := by
  constructor
  · rintro obs id rfl
    constructor
    · exact ⟨((scrapeLoop initialScrapeState obs).2).map Event.reasoning
        ++ [Event.answer (answerContent (scrapeLoop initialScrapeState obs).1.full)]
        ++ structureEvents id (scrapeLoop initialScrapeState obs).1.full,
        by simp [handlerEvents, successEvents]⟩
    · simp [handlerEvents, successEvents, List.count_append,
        count_done_map_reasoning, count_done_structureEvents, List.count_cons]
  · rintro pre msg rfl
    exact ⟨pre, rfl⟩

theorem stream_final_event_shape_witness :
    (handlerEvents (RunOutcome.ok [] [])).count Event.done = 1 :=
  ((stream_final_event_shape (RunOutcome.ok [] [])).1 [] [] rfl).2

/-- C1 counterexample: a request that throws before any event was pushed
(for example, the fallback browser launch failing) produces the stream
[error], which ends on an error event with no done event after it, so a
stream can end on error without a following done. -/
theorem failure_stream_lacks_done :
    handlerEvents (RunOutcome.fail [] (("browser launch failed").data))
      = [Event.error (("browser launch failed").data)] ∧
    Event.done ∉ handlerEvents (RunOutcome.fail [] (("browser launch failed").data)) := by
  refine ⟨rfl, ?_⟩
  decide

/-- C4 counterexample: the two color texts of the answer-region locator
do not denote the same color: the hex form denotes a different triple
than the RGB function form. -/
theorem selector_color_forms_not_equal :
    rgbFuncColorValue rgbFormText ≠ hexColorValue hexFormText := by
  decide

/-- C4 (amended): the two color representations in the answer-region
selector denote adjacent but distinct colors: the RGB function form
denotes (38, 39, 48) while the hex form #26272f denotes (38, 39, 47),
one less in the blue channel. -/
theorem selector_color_forms_values :
    rgbFuncColorValue rgbFormText = some ⟨38, 39, 48⟩ ∧
    hexColorValue hexFormText = some ⟨38, 39, 47⟩ := by
  decide

/-- C5: a request whose question field is absent, empty, or
whitespace-only is rejected synchronously with the 400 client error
before any browser work: the response is the rejection, it carries no
events, and it is independent of anything the browser would have done. -/
theorem empty_question_rejected (q : Option (List Char)) (o o2 : RunOutcome)
    (h : q = none ∨ ∃ s, q = some s ∧ trim s = []) :
    askHandler q o = Response.badRequest (("question required").data) ∧
    responseEvents (askHandler q o) = [] ∧
    askHandler q o = askHandler q o2 := by
  rcases h with rfl | ⟨s, rfl, hs⟩
  · exact ⟨rfl, rfl, rfl⟩
  · simp [askHandler, hs, responseEvents]

theorem empty_question_rejected_witness :
    askHandler (some (("  ").data)) (RunOutcome.ok [] [])
      = Response.badRequest (("question required").data) :=
  (empty_question_rejected (some (("  ").data)) (RunOutcome.ok [] [])
    (RunOutcome.fail [] []) (Or.inr ⟨(("  ").data), rfl, by decide⟩)).1

/-- C3: extraction takes the first double-asterisk-delimited run of
non-asterisk characters, strips the asterisks and trims surrounding
whitespace: on "foo bar **CC(=O)O** baz" it yields "CC(=O)O"; and when
no such delimited run exists in the accumulated text, the answer event
carries the sentinel "No SMILES found" and no structure event is
emitted. -/
theorem smiles_extraction_spec (obs : List (List Char)) (id s h : List Char)
    (hnone : firstMatch (scrapeLoop initialScrapeState obs).1.full = none) :
    smilesOf (("foo bar **CC(=O)O** baz").data) = some (("CC(=O)O").data) ∧
    smilesOf (("pre ** CC ** post").data) = some (("CC").data) ∧
    Event.answer (("No SMILES found").data) ∈ successEvents obs id ∧
    Event.structureEvt s h ∉ successEvents obs id := by
  have h0 : smilesOf (scrapeLoop initialScrapeState obs).1.full = none := by
    simp [smilesOf, hnone]
  refine ⟨by decide, by decide, ?_, ?_⟩
  · simp [successEvents, answerContent, h0]
  · simp [successEvents, structureEvents, h0]

theorem smiles_extraction_spec_witness :
    Event.answer (("No SMILES found").data) ∈ successEvents [] [] :=
  (smiles_extraction_spec [] [] [] [] (by decide)).2.2.1

/-- C9: when the first delimited run consists only of whitespace, the
completion test still fires (whitespace is a non-asterisk character),
but the trimmed extraction is empty, so the answer event carries the
sentinel "No SMILES found" and no structure event is emitted even though
a completion pattern was present. -/
theorem whitespace_completion_sentinel (full b id : List Char)
    (h1 : firstMatch full = some b) (h2 : trim b = []) :
    hasCompletion full = true ∧
    answerContent full = ("No SMILES found").data ∧
    structureEvents id full = [] := by
  have h0 : smilesOf full = some [] := by simp [smilesOf, h1, h2]
  refine ⟨?_, ?_, ?_⟩
  · simp [hasCompletion, h1]
  · simp [answerContent, h0]
  · simp [structureEvents, h0]

theorem whitespace_completion_sentinel_witness :
    hasCompletion (("x ** ** y").data) = true ∧
    answerContent (("x ** ** y").data) = ("No SMILES found").data ∧
    structureEvents [] (("x ** ** y").data) = [] :=
  whitespace_completion_sentinel (("x ** ** y").data) [' '] [] (by decide) (by decide)

/-- C6: every structure event emitted on a successful request carries the
synthesized html fragment for its extracted value, and the fragment's
embedded script renders an SVG element when the value contains the
reaction arrow character and an image element when it does not. -/
theorem structure_fragment_render_branch (obs : List (List Char)) (id s h : List Char)
    (hmem : Event.structureEvt s h ∈ successEvents obs id) :
    (s.contains '>' = true → renderedElement s = RenderedElem.svg) ∧
    (s.contains '>' = false → renderedElement s = RenderedElem.img) ∧
    h = (htmlFragment (String.mk id) (String.mk s)).data := by
  simp only [successEvents, List.mem_append, List.mem_map, List.mem_singleton] at hmem
  have hs : Event.structureEvt s h
      ∈ structureEvents id (scrapeLoop initialScrapeState obs).1.full := by
    rcases hmem with ((⟨a, _, ha⟩ | ha) | hs) | ha
    · exact absurd ha (by simp)
    · exact absurd ha (by simp)
    · exact hs
    · exact absurd ha (by simp)
  rcases h0 : smilesOf (scrapeLoop initialScrapeState obs).1.full with _ | s0
  · simp [structureEvents, h0] at hs
  · by_cases hs0 : s0 = []
    · simp [structureEvents, h0, hs0] at hs
    · simp only [structureEvents, h0, if_neg hs0, List.mem_singleton,
        Event.structureEvt.injEq] at hs
      refine ⟨?_, ?_, ?_⟩
      · intro hgt
        unfold renderedElement
        rw [hgt]
        rfl
      · intro hgt
        unfold renderedElement
        rw [hgt]
        rfl
      · rw [hs.1]
        exact hs.2

theorem structure_fragment_render_branch_witness :
    renderedElement (("A>>B").data) = RenderedElem.svg := by
  have h0 : smilesOf ((scrapeLoop initialScrapeState [("**A>>B**").data]).1.full)
      = some (("A>>B").data) := by decide
  have hne : (("A>>B").data) ≠ [] := by decide
  refine (structure_fragment_render_branch [("**A>>B**").data] [] (("A>>B").data)
    ((htmlFragment (String.mk []) (String.mk (("A>>B").data))).data) ?_).1 (by decide)
  simp [successEvents, structureEvents, h0, hne]

theorem getPage_page_cases (st : WarmState) (reuseOk : Bool) (launchId : Nat) :
    (getPage st reuseOk launchId).1 = ⟨none⟩ ∨
    (getPage st reuseOk launchId).1 = ⟨some (Browser.fallback launchId)⟩ := by
  unfold getPage
  by_cases hw : (st.warmReady && st.warmBrowser.isSome) = true
  · cases reuseOk <;> simp [hw]
  · simp [hw]

/-- C7: request cleanup closes the underlying browser if and only if the
page carries the owned fallback handle, and then exactly once; the warm
browser is never closed by the finally block (which depends only on the
page, so this holds on the success and failure paths alike), and a
request that obtained no page closes nothing. -/
theorem owned_browser_closed_exactly_once (st : WarmState) (reuseOk : Bool)
    (launchId : Nat) (b : Browser) :
    CleanupAction.closeBrowser Browser.warm
        ∉ cleanupActions (some (getPage st reuseOk launchId).1) ∧
    ((getPage st reuseOk launchId).1.tempBrowser = some b →
      (cleanupActions (some (getPage st reuseOk launchId).1)).count
        (CleanupAction.closeBrowser b) = 1) ∧
    ((getPage st reuseOk launchId).1.tempBrowser = none →
      cleanupActions (some (getPage st reuseOk launchId).1) = []) ∧
    cleanupActions none = [] := by
  rcases getPage_page_cases st reuseOk launchId with hp | hp <;> rw [hp]
  · refine ⟨by simp [cleanupActions], ?_, fun _ => rfl, rfl⟩
    intro hb
    simp at hb
  · refine ⟨by simp [cleanupActions], ?_, ?_, rfl⟩
    · intro hb
      simp at hb
      subst hb
      simp [cleanupActions, List.count_cons]
    · intro hb
      simp at hb

theorem owned_browser_closed_exactly_once_witness :
    (cleanupActions (some (getPage ⟨some Browser.warm, true⟩ false 0).1)).count
      (CleanupAction.closeBrowser (Browser.fallback 0)) = 1 :=
  (owned_browser_closed_exactly_once ⟨some Browser.warm, true⟩ false 0
    (Browser.fallback 0)).2.1 (by decide)

/-- C10: getPage never writes the process-wide warm state; in particular
when the warm instance is ready but reuse fails it leaves warmReady and
warmBrowser unchanged and returns a page tagged with a freshly launched
fallback browser.  The warm state is written only by the warm-up task
(`warmUp`). -/
theorem getPage_preserves_warm_state (st : WarmState) (reuseOk : Bool) (launchId : Nat) :
    (getPage st reuseOk launchId).2 = st ∧
    (st.warmReady = true → st.warmBrowser.isSome = true → reuseOk = false →
      (getPage st reuseOk launchId).1 = ⟨some (Browser.fallback launchId)⟩) := by
  constructor
  · unfold getPage
    by_cases hw : (st.warmReady && st.warmBrowser.isSome) = true
    · cases reuseOk <;> simp [hw]
    · simp [hw]
  · rintro h1 h2 rfl
    simp [getPage, h1, h2]

theorem getPage_preserves_warm_state_witness :
    (getPage ⟨some Browser.warm, true⟩ false 0).2 = ⟨some Browser.warm, true⟩ ∧
    (getPage ⟨some Browser.warm, true⟩ false 0).1 = ⟨some (Browser.fallback 0)⟩ :=
  ⟨(getPage_preserves_warm_state ⟨some Browser.warm, true⟩ false 0).1,
    (getPage_preserves_warm_state ⟨some Browser.warm, true⟩ false 0).2 rfl rfl rfl⟩
